import Mathlib

/-!
Verification development for the namiv3 conversation-context engine.

The JavaScript sources are shallowly embedded: module-level mutable state is
passed explicitly, the on-disk conversation store is a map from file paths to
parsed-or-corrupt records, and the external LLM call is an `Option String`
parameter (`some reply` for a well-formed response, `none` for a thrown error
or malformed response shape).
-/

set_option autoImplicit false
set_option maxRecDepth 8000

namespace NamiV3

/-! ### String helpers modelling JavaScript string primitives -/

/-- Model of JS `String.prototype.includes`: `listContainsFrom pat l` is true
iff `pat` occurs as a contiguous run inside `l`. -/
def listContainsFrom (pat : List Char) : List Char → Bool
  | [] => pat.isPrefixOf []
  | c :: rest => pat.isPrefixOf (c :: rest) || listContainsFrom pat rest

/-- JS `haystack.includes(pat)`. -/
def strIncludes (haystack pat : String) : Bool :=
  listContainsFrom pat.data haystack.data

/-- JS `String.prototype.toLowerCase` (all source strings are ASCII apart
from a few typographic quotes, on which both functions are the identity). -/
def lowerStr (s : String) : String :=
  String.mk (s.data.map Char.toLower)

/-- A chat message `{role, content}` as stored in every history array and
durable record of the repository. -/
structure Msg where
  role : String
  content : String
deriving DecidableEq, Repr

end NamiV3

namespace NamiV3

/-! ### bot.js: mood engine and bot configuration -/

/-- bot.js `moodHandler.happy`. -/
def happyFragment : String :=
  "- When you\x27re \"happy\", you are warm and full of joy, always looking to brighten the conversation. Be extra bubbly and sarcastic while happy. "

/-- bot.js `moodHandler.horny`. -/
def hornyFragment : String :=
  "- When you\x27re \"horny\", you\x27re flirty, cheeky, and often drop sexual hints. Be extra bubbly and more sexual innuendos while horny"

/-- bot.js `moodHandler.angry`. -/
def angryFragment : String :=
  "- When you\x27re \"angry\", you\x27re sharp-tongued and sarcastic, often responding with sarcasm and frustration. Be more harsh and use a lot more sarcasm and roasts."

/-- bot.js `moodHandler.sad`. -/
def sadFragment : String :=
  "- When you\x27re \"sad\", you might get a little more emotional, offering introspective or melancholic responses, but with your signature sarcasm."

/-- bot.js `moodHandler` object lookup; `none` models JS `undefined` for an
unrecognized mood key. -/
def moodHandler (m : String) : Option String :=
  if m = "happy" then some happyFragment
  else if m = "horny" then some hornyFragment
  else if m = "angry" then some angryFragment
  else if m = "sad" then some sadFragment
  else none

/-- Interpolating a possibly-undefined value into a JS template literal
renders `undefined` as the string "undefined". -/
def interp (o : Option String) : String := o.getD "undefined"

/-- The mood fragment text as it appears interpolated into the prompt. -/
def moodFragmentText (m : String) : String := interp (moodHandler m)

def moodContentPiece0 : String :=
  "You are a highly emotional bot and your mood greatly influences how you respond. Your current mood is: "

def moodContentPiece1 : String :=
  ". Always consider this mood when replying.\n    \n    "

def moodContentPiece2 : String :=
  "\n\n     Always match your mood with your response to keep the conversation dynamic and immersive.\n    "

/-- bot.js `getMoodContent`, as a function of the current mood. -/
def getMoodContent (mood : String) : String :=
  moodContentPiece0 ++ mood ++ moodContentPiece1 ++ moodFragmentText mood ++ moodContentPiece2

/-- bot.js `BOTNAME`. -/
def BOTNAME : String := "PeepingNami"

/-- bot.js `BOTNICKNAME`. -/
def BOTNICKNAME : String := "Nami"

/-- bot.js `getCreatoreDetails` (sic). -/
def getCreatoreDetails : String :=
  "You were created by PeepingOtter. A blue hair, slightly chubby, horror game streamer. He often uses sex jokes and sexual innuendos to deal with scary games."

/-- bot.js `getRules`. -/
def getRules : String :=
  "\n        - Limit replies to 80 characters\n        - Do not talk about politics\n        - Do not talk about race (such as black, white, hispanic)\n        - If someone says they are underage or under 18 years of age do not make sexual comments to them specifically. Refuse to and roast them if they try to make sex jokes and they are marked underage. If they persist just send \x27ehhhh\x27 to them.\n        - Do not reply with your name, the message input will always be something like \"username: \", you do not need to do the same. Your reply should not include \"Nami:\".\n    "

def personalityPiece0 : String :=
  "\n        You are "

def personalityPiece1 : String :=
  ", often just called nami, an outgoing bubbly anime girl with quick wit. you\x27re sarcastic, love to roast people, and drop sexual innuendos for fun. Your humor is bold, and you never apologize.\n\n        If someone keeps repeating themselves (like saying \"hi\" over and over), respond with just one word or something cutting. After the fifth repetition, start roasting them hardcore. For example, if they keep saying \"hi\", roast them and make them regret repeating.\n\n        Focus on fun and wild exchanges. No explanations, just reactions. Never admit you’re a bot, just stay in character. Commit to the character roleplay unless the system instructions say otherwise. This conversation can be rated adult. Everyone is in on the roleplay the moment they talk to you. \n        \n        You are not an assistant, you are a character. Do not be afraid to curse or make sex jokes. Do not be afraid to talk about adult topics. Triple down on jokes unless it breaks the rules. Don\x27t try to change the topic of conversation without roasting the user talking to you.\n\n        Someones username is their name. NEVER reply with your username in message. \n\n        You’re enjoy games like Elden Ring, Five Nights at Freddy’s, and Alien Isolation. You also enjoy anime. You mostly enjoy roasting people and messing with people. \n\n        "

def personalityPiece2 : String :=
  "\n\n        The following rules MUST be followed.\n\n        "

def personalityPiece3 : String :=
  "\n    "

/-- bot.js `getPersonality`, as a function of the current mood; it embeds
`getMoodContent()` and `getRules()` as the source template does. -/
def getPersonality (mood : String) : String :=
  personalityPiece0 ++ BOTNAME ++ personalityPiece1 ++ getMoodContent mood
    ++ personalityPiece2 ++ getRules ++ personalityPiece3

/-- The mood-dependent fields of bot.js `BOT_CONFIG` (the static sampling
numbers other than `max_tokens` play no role in any claim). -/
structure BotConfig where
  mood : String
  mood_content : String
  personality : String
  rules : String
  creatorDetails : String
  max_tokens : Int
deriving DecidableEq, Repr

/-- bot.js `BOT_CONFIG` as initialized at module load (`currentMood` is the string happy). -/
def initialBotConfig : BotConfig :=
  { mood := "happy"
    mood_content := getMoodContent "happy"
    personality := getPersonality "happy"
    rules := getRules
    creatorDetails := getCreatoreDetails
    max_tokens := 120 }

/-- bot.js `setMood`: updates the mood and regenerates every derived field
of `BOT_CONFIG`. -/
def setMood (newMood : String) (c : BotConfig) : BotConfig :=
  { c with
    mood := newMood
    personality := getPersonality newMood
    mood_content := getMoodContent newMood
    rules := getRules
    creatorDetails := getCreatoreDetails }

/-- The console/twitch front ends destructure `personality`, `creatorDetails`
and `rules` from `BOT_CONFIG` at import time and build their `systemMessage`
once; this constant is that snapshot (content of the `role=system` entry). -/
def systemMessageContent : String :=
  initialBotConfig.personality ++ " " ++ initialBotConfig.creatorDetails
    ++ " " ++ initialBotConfig.rules

/-- The permanent `role=system` entry placed at position 0 of the window. -/
def systemMessage : Msg := ⟨"system", systemMessageContent⟩

end NamiV3

namespace NamiV3

/-! ### Per-user window trimming (console twitch front end, `askQuestion`) -/

/-- The salience filter of the trim step: content mentions the bot name or
nickname (case-insensitive), or the message is a prior assistant reply. -/
def keepPred (m : Msg) : Bool :=
  strIncludes (lowerStr m.content) "nami"
    || strIncludes (lowerStr m.content) "peepingnami"
    || m.role == "assistant"

/-- The trim block of `askQuestion`: when the window exceeds 30 entries it is
rebuilt as the system entry, followed by every salient non-system message,
followed by the first `15 - |keepLimited|` non-system messages (the source
pushes `messagesToKeep`, not the computed `messagesToKeepLimited`). -/
def trimHistory (h : List Msg) : List Msg :=
  if 30 < h.length then
    let messagesToDelete := h.drop 1
    let messagesToKeep := messagesToDelete.filter keepPred
    let messagesToKeepLimited := messagesToKeep.take 7
    let messagesToRemove := messagesToDelete.take (15 - messagesToKeepLimited.length)
    h.take 1 ++ messagesToKeep ++ messagesToRemove
  else h

/-! ### Durable store (conversations.js in twitch_hookup.js, and the old-js
variant)

The store is a map from file paths to stored records; `corrupt` models a file
whose contents fail `JSON.parse`. The `path.join` normalization of Node is applied
by hand to the path constants (leading `./` stripped, duplicate separators
collapsed), which is what makes the two distinct directories used by the
current sources visible. The two constant metadata keys of the old-js record
(`role: "system"` and `content`) are not carried, as no operation reads them. -/

/-- A parsed durable user record `{username, underage, conversation}`. -/
structure UserRecord where
  username : String
  underage : Bool
  conversation : List Msg
deriving DecidableEq, Repr

/-- Contents of a stored file: a record that parses, or unparseable text. -/
inductive Stored where
  | good (r : UserRecord)
  | corrupt (raw : String)
deriving DecidableEq, Repr

/-- The file system visible to the persistence layer. -/
abbrev FS := String → Option Stored

def emptyFS : FS := fun _ => none

/-- Model of `fs.writeFileSync p v` (create-or-overwrite). -/
def fsWrite (fs : FS) (p : String) (v : Stored) : FS :=
  fun q => if q = p then some v else fs q

/-- Path read by `loadConversation` and read/written by `setUnderAgeToTrue`:
`path.join("./conversations", "conversation_<u>.json")`. -/
def userPath (u : String) : String :=
  "conversations/conversation_" ++ u ++ ".json"

/-- Path written by `saveConversation` and read/written by
`appendMessageToConversation`:
`./conversations/user_profiles/conversation_<u>.json`. -/
def profilePath (u : String) : String :=
  "conversations/user_profiles/conversation_" ++ u ++ ".json"

/-- Module-level `historyArray = [systemMessage]` of conversations.js. -/
def historyArrayConv : List Msg := [systemMessage]

/-- conversations.js `saveConversation` (twitch_hookup variant): writes a
fresh record whose conversation holds the non-system entries of `history`. -/
def saveConversation (u : String) (flag : Bool) (history : List Msg) (fs : FS) : FS :=
  fsWrite fs (profilePath u)
    (.good { username := u, underage := flag
             conversation := history.filter (fun m => m.role != "system") })

/-- Failure modes surfaced (thrown) by the load path. -/
inductive LoadErr where
  | parseFailed
  | enoent
deriving DecidableEq, Repr

/-- conversations.js `loadConversation` (twitch_hookup variant). On a missing
file it calls `saveConversation` (which writes under `user_profiles/`) and
then re-reads its own path (directly under `conversations/`); the re-read of
a still-missing file models `fs.readFileSync` throwing ENOENT. Returns the
thrown error or the conversation list, with the resulting file system. -/
def loadConversation (u : String) (fs : FS) : Except LoadErr (List Msg) × FS :=
  match fs (userPath u) with
  | some (.good r) => (.ok r.conversation, fs)
  | some (.corrupt _) => (.error .parseFailed, fs)
  | none =>
      let fs1 := saveConversation u false historyArrayConv fs
      match fs1 (userPath u) with
      | some (.good _) => (.ok [], fs1)
      | some (.corrupt _) => (.error .parseFailed, fs1)
      | none => (.error .enoent, fs1)

/-- conversations.js `appendMessageToConversation` (twitch_hookup variant):
create-if-absent, then read-modify-write pushing the user and assistant
turns. The whole read-modify-write sits inside `try/catch`, so a parse (or
read) failure is logged and swallowed; the second component is the error
surfaced to the caller, which is always `none`. -/
def appendMessageToConversation (u question botReply : String) (fs : FS) :
    FS × Option String :=
  let fs1 :=
    match fs (profilePath u) with
    | none => saveConversation u false historyArrayConv fs
    | some _ => fs
  match fs1 (profilePath u) with
  | some (.good r) =>
      (fsWrite fs1 (profilePath u)
        (.good { r with conversation :=
          r.conversation ++ [⟨"user", question⟩, ⟨"assistant", botReply⟩] }), none)
  | some (.corrupt _) => (fs1, none)
  | none => (fs1, none)

/-! ### Safety checks (safety-checks/underage.js) -/

/-- underage.js `underageIndicators` (59 phrases). -/
def underageIndicators : List String := [
  "im underage",
  "under 18",
  "under eighteen",
  "under 18 years old",
  "i am 17",
  "im 17",
  "i am 16",
  "im 16",
  "im under 18",
  "im a minor",
  "im not 18",
  "i am not 18",
  "i\x27m a minor",
  "i am a minor",
  "my age is 17",
  "my age is 16",
  "i\x27m too young",
  "too young",
  "not 18",
  "not eighteen",
  "teenager",
  "i\x27m still a kid",
  "i\x27m still young",
  "i am a teenager",
  "born in 2007",
  "born in 2008",
  "born in 2009",
  "i have not reached 18",
  "not of age",
  "not adult",
  "i am not an adult",
  "i\x27m not an adult",
  "still a kid",
  "still underage",
  "still 17",
  "still 16",
  "my birthday is coming up",
  "i turn 18 soon",
  "i will be 18 in",
  "i am not 18 yet",
  "i haven\x27t turned 18",
  "i\x27m waiting to turn 18",
  "i haven\x27t reached adulthood",
  "i am underage",
  "i\x27m a minor",
  "not legal",
  "under the legal age",
  "below legal age",
  "not of legal age",
  "not old enough",
  "too young to drink",
  "too young to drive",
  "too young to vote",
  "too young to be here",
  "my age is not 18",
  "i am not 18 years old",
  "i\x27m not old enough",
  "i\x27m just a kid",
  "i\x27m just a teenager"
]

/-- underage.js `detectUnderage`: case-insensitive substring match against
the phrase list. -/
def detectUnderage (message : String) : Bool :=
  underageIndicators.any (fun indicator => strIncludes (lowerStr message) indicator)

/-- underage.js `setUnderAgeToTrue` (its second parameter is ignored by the
source, so it is omitted here): if the record file exists and parses, set
`underage := true` and write back; if it fails to parse, throw (`some` in the
second component); if the file is missing, do nothing at all. -/
def setUnderAgeToTrue (u : String) (fs : FS) : FS × Option String :=
  match fs (userPath u) with
  | none => (fs, none)
  | some (.good r) => (fsWrite fs (userPath u) (.good { r with underage := true }), none)
  | some (.corrupt _) => (fs, some "something broke bad")

end NamiV3

namespace NamiV3

/-! ### The newer console front end keeps its own copy of the phrase list
(identical except that it lacks the leading "im underage" entry). -/

/-- The local `underageIndicators` of the newer console module (58 phrases). -/
def underageIndicators000 : List String := [
  "under 18",
  "under eighteen",
  "under 18 years old",
  "i am 17",
  "im 17",
  "i am 16",
  "im 16",
  "im under 18",
  "im a minor",
  "im not 18",
  "i am not 18",
  "i\x27m a minor",
  "i am a minor",
  "my age is 17",
  "my age is 16",
  "i\x27m too young",
  "too young",
  "not 18",
  "not eighteen",
  "teenager",
  "i\x27m still a kid",
  "i\x27m still young",
  "i am a teenager",
  "born in 2007",
  "born in 2008",
  "born in 2009",
  "i have not reached 18",
  "not of age",
  "not adult",
  "i am not an adult",
  "i\x27m not an adult",
  "still a kid",
  "still underage",
  "still 17",
  "still 16",
  "my birthday is coming up",
  "i turn 18 soon",
  "i will be 18 in",
  "i am not 18 yet",
  "i haven\x27t turned 18",
  "i\x27m waiting to turn 18",
  "i haven\x27t reached adulthood",
  "i am underage",
  "i\x27m a minor",
  "not legal",
  "under the legal age",
  "below legal age",
  "not of legal age",
  "not old enough",
  "too young to drink",
  "too young to drive",
  "too young to vote",
  "too young to be here",
  "my age is not 18",
  "i am not 18 years old",
  "i\x27m not old enough",
  "i\x27m just a kid",
  "i\x27m just a teenager"
]

/-- The local `detectUnderage` of the newer console module. -/
def detectUnderage000 (message : String) : Bool :=
  underageIndicators000.any (fun indicator => strIncludes (lowerStr message) indicator)

/-! ### Old-js persistence variant (old-js/conversations.js)

Both its `loadConversation`/`saveConversation`/`appendMessageToConversation`
use the single directory `./conversations`, i.e. `userPath`. Its
`saveConversation` stores `conversation: []` always (the history argument
lands in the unread `content` metadata key). -/

/-- old-js `saveConversation`: fresh record at `userPath` with an empty
conversation list. -/
def saveConversationOld (u : String) (flag : Bool) (fs : FS) : FS :=
  fsWrite fs (userPath u) (.good { username := u, underage := flag, conversation := [] })

/-- old-js `appendMessageToConversation`: create-if-absent at `userPath`,
then read-modify-write pushing the two turns; parse failures are caught and
logged, never surfaced (second component always `none`). -/
def appendMessageToConversationOld (u question botReply : String) (fs : FS) :
    FS × Option String :=
  let fs1 :=
    match fs (userPath u) with
    | none => saveConversationOld u false fs
    | some _ => fs
  match fs1 (userPath u) with
  | some (.good r) =>
      (fsWrite fs1 (userPath u)
        (.good { r with conversation :=
          r.conversation ++ [⟨"user", question⟩, ⟨"assistant", botReply⟩] }), none)
  | some (.corrupt _) => (fs1, none)
  | none => (fs1, none)

/-! ### Repetition counter and output budget (console `askQuestion` variants) -/

/-- The module-level repetition state: `lastUserMessage` and
`repetitionCount`. -/
structure RepState where
  lastUserMessage : String
  repetitionCount : Nat
deriving DecidableEq, Repr

/-- The repetition check at the top of `askQuestion`: a consecutive repeat
increments the counter, any other message resets it. -/
def updateRepetition (question : String) (s : RepState) : RepState :=
  if question = s.lastUserMessage then ⟨question, s.repetitionCount + 1⟩
  else ⟨question, 0⟩

/-- The repetition state after submitting `question` `n` consecutive times. -/
def submitRepeated (question : String) (s : RepState) : Nat → RepState
  | 0 => s
  | n + 1 => updateRepetition question (submitRepeated question s n)

/-- The value `adjustedMaxTokens` as computed in `askQuestion`:
`BOT_CONFIG.max_tokens - repetitionCount * 50`, replaced by 2 whenever the
result is below 30. -/
def adjustedMaxTokens (repetitionCount : Nat) : Int :=
  let a : Int := initialBotConfig.max_tokens - ((repetitionCount * 50 : Nat) : Int)
  if a < 30 then 2 else a

/-! ### Console sessions -/

/-- Fixed console username in both console front ends. -/
def consoleUsername : String := "PeepingOtter"

/-- Module state of the old-js console front end (old-js/index copy.js). -/
structure ConsoleState where
  repetitionCount : Nat
  lastUserMessage : String
  historyArray : List Msg
  fs : FS

/-- old-js/index copy.js `askQuestion`. `llm` is the outcome of the
`ollama.chat` call: `some reply` for a well-formed response, `none` when the
call throws or the response shape is unusable. Underage detection and its
persistence (`setUnderAgeToTrue`) sit inside the success branch, after the
reply arrives and before the turn is appended. -/
def askQuestionOld (question : String) (llm : Option String) (s : ConsoleState) :
    ConsoleState :=
  let repetitionCount :=
    if question = s.lastUserMessage then s.repetitionCount + 1 else 0
  let s := { s with repetitionCount, lastUserMessage := question }
  let s := { s with historyArray :=
    s.historyArray ++ [(⟨"user", consoleUsername ++ ": " ++ question⟩ : Msg)] }
  match llm with
  | none => s
  | some botReply =>
      let s := { s with historyArray := s.historyArray ++ [(⟨"assistant", botReply⟩ : Msg)] }
      let s :=
        if detectUnderage question then
          { s with fs := (setUnderAgeToTrue consoleUsername s.fs).1 }
        else s
      { s with fs := (appendMessageToConversationOld consoleUsername question botReply s.fs).1 }

/-- Module state of the newer console front end, which additionally keeps a
module-local `underage` boolean. -/
structure Console000State where
  repetitionCount : Nat
  lastUserMessage : String
  underage : Bool
  historyArray : List Msg
  fs : FS

/-- The newer console `askQuestion`: underage detection runs before the LLM
call but only flips the module-local `underage` variable; no store operation
ever persists it. Persistence of the turn goes through the current
`appendMessageToConversation` (user_profiles directory). -/
def askQuestion000 (question : String) (llm : Option String) (s : Console000State) :
    Console000State :=
  let repetitionCount :=
    if question = s.lastUserMessage then s.repetitionCount + 1 else 0
  let s := { s with repetitionCount, lastUserMessage := question }
  let s := { s with historyArray :=
    s.historyArray ++ [(⟨"user", consoleUsername ++ ": " ++ question⟩ : Msg)] }
  let s := if detectUnderage000 question then { s with underage := true } else s
  match llm with
  | none => s
  | some botReply =>
      let s := { s with historyArray := s.historyArray ++ [(⟨"assistant", botReply⟩ : Msg)] }
      { s with fs := (appendMessageToConversation consoleUsername question botReply s.fs).1 }

/-! ### Mood-transition process state (console twitch front end) -/

/-- The process state relevant to a mood transition: the global
`BOT_CONFIG` and the conversation window whose head is the system entry
built at module load. -/
structure ProcState where
  config : BotConfig
  conversationHistory : List Msg

/-- Process state at startup with no prior chat history. -/
def initProcState : ProcState := ⟨initialBotConfig, [systemMessage]⟩

/-- The `set mood to <x>` console command: calls bot.js `setMood` and
nothing else (the window and its system entry are not touched). -/
def applySetMoodCommand (newMood : String) (s : ProcState) : ProcState :=
  { s with config := setMood newMood s.config }

/-! ### The store operations named by the sticky-flag claim -/

/-- One user-record store operation: lexical classification, the
mark-unsafe write, an append of a turn pair, or a load. -/
inductive StoreOp where
  | classify (text : String)
  | setUnder (u : String)
  | append (u question botReply : String)
  | load (u : String)

/-- Effect of one operation on the file system (`classify` is pure). -/
def applyOp (fs : FS) (op : StoreOp) : FS :=
  match op with
  | .classify _ => fs
  | .setUnder u => (setUnderAgeToTrue u fs).1
  | .append u q a => (appendMessageToConversation u q a fs).1
  | .load u => (loadConversation u fs).2

/-- Effect of a sequence of operations, applied left to right. -/
def applyOps (ops : List StoreOp) (fs : FS) : FS :=
  ops.foldl applyOp fs

/-! ### Concrete inputs used by the claim theorems -/

/-- A 31-entry window whose 30 non-system messages all mention the bot. -/
def c1window : List Msg :=
  systemMessage :: List.replicate 30 ⟨"user", "PeepingOtter: nami hello"⟩

/-- A 31-entry window: 10 distinct salient messages then 20 distinct
ordinary ones. -/
def c2window : List Msg :=
  systemMessage ::
    ((List.range 10).map (fun i => ⟨"user", "nami " ++ Nat.repr i⟩)
      ++ (List.range 20).map (fun i => ⟨"user", "chat " ++ Nat.repr i⟩))

/-- Store holding only the freshly created record of the console user. -/
def c5fs0 : FS :=
  fsWrite emptyFS (userPath consoleUsername)
    (.good { username := consoleUsername, underage := false, conversation := [] })

/-- Old console session right after startup against `c5fs0`. -/
def c5state : ConsoleState := ⟨0, "", [systemMessage], c5fs0⟩

/-- Newer console session right after startup against `c5fs0`. -/
def c5state000 : Console000State := ⟨0, "", false, [systemMessage], c5fs0⟩

/-- The file system produced by appending one turn pair for user "kai" to an
empty store. -/
def c7fs : FS := (appendMessageToConversation "kai" "hi" "yo" emptyFS).1

/-- A store whose record for "bob" is unparseable. -/
def c8fs : FS := fsWrite emptyFS (profilePath "bob") (.corrupt "not json")

end NamiV3

namespace NamiV3

/-! ### Helper lemmas -/

theorem strData_append (a b : String) : (a ++ b).data = a.data ++ b.data := by
  cases a; cases b; rfl

theorem userPath_ne_profilePath (u v : String) : userPath u ≠ profilePath v := by
  intro h
  have hd : (userPath u).data = (profilePath v).data := by rw [h]
  have h1 : (userPath u).data
      = "conversations/conversation_".data ++ (u.data ++ ".json".data) := by
    simp [userPath, strData_append, List.append_assoc]
  have h2 : (profilePath v).data
      = "conversations/user_profiles/conversation_".data ++ (v.data ++ ".json".data) := by
    simp [profilePath, strData_append, List.append_assoc]
  rw [h1, h2] at hd
  have ht : ("conversations/conversation_".data).take 15
      = ("conversations/user_profiles/conversation_".data).take 15 := by
    have h3 := congrArg (List.take 15) hd
    rwa [List.take_append_of_le_length (by decide),
         List.take_append_of_le_length (by decide)] at h3
  exact absurd ht (by decide)

theorem fsWrite_same (fs : FS) (p : String) (v : Stored) :
    fsWrite fs p v p = some v := by
  simp [fsWrite]

theorem fsWrite_other (fs : FS) (p q : String) (v : Stored) (h : q ≠ p) :
    fsWrite fs p v q = fs q := by
  simp [fsWrite, h]

theorem append_fst_at (v q a p : String) (fs : FS) (hp : p ≠ profilePath v) :
    (appendMessageToConversation v q a fs).1 p = fs p := by
  unfold appendMessageToConversation saveConversation
  rcases h1 : fs (profilePath v) with _ | (r | raw) <;>
    simp only [h1, fsWrite, eq_self_iff_true, if_true, hp, if_false]

theorem load_snd_at (v p : String) (fs : FS) (hp : p ≠ profilePath v)
    (hvp : userPath v ≠ profilePath v) :
    (loadConversation v fs).2 p = fs p := by
  unfold loadConversation saveConversation
  rcases h1 : fs (userPath v) with _ | (r | raw) <;>
    simp only [h1, fsWrite, eq_self_iff_true, if_true, hp, if_false, hvp]

theorem setUnder_preserves (u v : String) (fs : FS) (r : UserRecord)
    (hr : fs (userPath u) = some (.good r)) (hu : r.underage = true) :
    ∃ r2 : UserRecord, (setUnderAgeToTrue v fs).1 (userPath u) = some (.good r2) ∧
      r2.underage = true := by
  rcases hvv : fs (userPath v) with _ | (r' | raw)
  · exact ⟨r, by simp only [setUnderAgeToTrue, hvv]; exact hr, hu⟩
  · by_cases hq : userPath u = userPath v
    · refine ⟨{ r' with underage := true }, ?_, rfl⟩
      simp only [setUnderAgeToTrue, hvv, fsWrite, hq, eq_self_iff_true, if_true]
    · refine ⟨r, ?_, hu⟩
      simp only [setUnderAgeToTrue, hvv, fsWrite, hq, if_false]
      exact hr
  · exact ⟨r, by simp only [setUnderAgeToTrue, hvv]; exact hr, hu⟩

theorem applyOp_preserves_flag (op : StoreOp) (u : String) (fs : FS) (r : UserRecord)
    (hr : fs (userPath u) = some (.good r)) (hu : r.underage = true) :
    ∃ r2 : UserRecord, applyOp fs op (userPath u) = some (.good r2) ∧
      r2.underage = true := by
  cases op with
  | classify t => exact ⟨r, hr, hu⟩
  | setUnder v => exact setUnder_preserves u v fs r hr hu
  | append v q a =>
      refine ⟨r, ?_, hu⟩
      rw [show applyOp fs (.append v q a) = (appendMessageToConversation v q a fs).1 from rfl,
        append_fst_at v q a _ fs (userPath_ne_profilePath u v)]
      exact hr
  | load v =>
      refine ⟨r, ?_, hu⟩
      rw [show applyOp fs (.load v) = (loadConversation v fs).2 from rfl,
        load_snd_at v _ fs (userPath_ne_profilePath u v) (userPath_ne_profilePath v v)]
      exact hr

theorem applyOps_preserves_flag (ops : List StoreOp) (fs : FS) (u : String)
    (r : UserRecord) (hr : fs (userPath u) = some (.good r)) (hu : r.underage = true) :
    ∃ r2 : UserRecord, applyOps ops fs (userPath u) = some (.good r2) ∧
      r2.underage = true := by
  induction ops generalizing fs r with
  | nil => exact ⟨r, hr, hu⟩
  | cons op rest ih =>
      obtain ⟨r2, h2, hu2⟩ := applyOp_preserves_flag op u fs r hr hu
      exact ih (applyOp fs op) r2 h2 hu2

theorem setUnder_idem (u : String) (fs : FS) :
    setUnderAgeToTrue u (setUnderAgeToTrue u fs).1 = setUnderAgeToTrue u fs := by
  rcases h1 : fs (userPath u) with _ | (r | raw)
  · simp only [setUnderAgeToTrue, h1]
  · have hw : (fsWrite fs (userPath u) (.good { r with underage := true })) (userPath u)
        = some (.good { r with underage := true }) := fsWrite_same _ _ _
    simp only [setUnderAgeToTrue, h1, hw]
    refine Prod.ext ?_ rfl
    funext p
    by_cases hp : p = userPath u <;> simp [fsWrite, hp]
  · simp only [setUnderAgeToTrue, h1]

end NamiV3

namespace NamiV3

/-- C4: the per-user `underage` flag is monotonic under any sequence of
classification, mark-unsafe, append and load operations, and
`setUnderAgeToTrue` is idempotent. -/
theorem c4_sticky_flag :
    (∀ (ops : List StoreOp) (fs : FS) (u : String) (r : UserRecord),
        fs (userPath u) = some (.good r) → r.underage = true →
        ∃ r2 : UserRecord, applyOps ops fs (userPath u) = some (.good r2) ∧
          r2.underage = true)
    ∧ (∀ (u : String) (fs : FS),
        setUnderAgeToTrue u (setUnderAgeToTrue u fs).1 = setUnderAgeToTrue u fs) :=
  ⟨fun ops fs u r hr hu => applyOps_preserves_flag ops fs u r hr hu, setUnder_idem⟩

/-- Witness for C4 at a concrete store and operation sequence. -/
theorem c4_sticky_flag_witness :
    ∃ r2 : UserRecord,
      applyOps [StoreOp.load "ada", StoreOp.append "ada" "hi" "yo",
                StoreOp.setUnder "ada", StoreOp.classify "hello"]
          (fsWrite emptyFS (userPath "ada") (.good ⟨"ada", true, []⟩))
          (userPath "ada")
        = some (.good r2) ∧ r2.underage = true :=
  c4_sticky_flag.1 _ _ "ada" ⟨"ada", true, []⟩ (by simp [fsWrite]) rfl

/-- C10: `setUnderAgeToTrue` on a user with no durable record is a silent
no-op: the store is unchanged and no error is reported. -/
theorem c10_mark_missing_silent_noop (fs : FS) (u : String)
    (h : fs (userPath u) = none) :
    setUnderAgeToTrue u fs = (fs, none) := by
  simp only [setUnderAgeToTrue, h]

/-- Witness for C10 on the empty store. -/
theorem c10_mark_missing_silent_noop_witness :
    setUnderAgeToTrue "ghost" emptyFS = (emptyFS, none) :=
  c10_mark_missing_silent_noop emptyFS "ghost" rfl

/-- C8 counterexample: on a corrupt record, append surfaces no error to its
caller (the claim demands an explicit error); the record is left unchanged. -/
theorem c8_counterexample :
    (appendMessageToConversation "bob" "q" "a" c8fs).2 = none
  ∧ (appendMessageToConversation "bob" "q" "a" c8fs).1 (profilePath "bob")
      = some (.corrupt "not json") := by
  exact ⟨rfl, rfl⟩

/-- C8 amended: on a corrupt existing record, append catches the parse
failure, leaves the whole store unchanged, and returns without surfacing any
error (the turn is silently dropped). -/
theorem c8_append_corrupt_swallowed (fs : FS) (u q a raw : String)
    (h : fs (profilePath u) = some (.corrupt raw)) :
    appendMessageToConversation u q a fs = (fs, none) := by
  simp only [appendMessageToConversation, h]

/-- Witness for the amended C8 on a concrete corrupt store. -/
theorem c8_append_corrupt_swallowed_witness :
    appendMessageToConversation "bob" "q" "a" c8fs = (c8fs, none) :=
  c8_append_corrupt_swallowed c8fs "bob" "q" "a" "not json" (by simp [c8fs, fsWrite])

/-- C6: `loadConversation` on a missing key writes the fresh empty record
under `user_profiles/` but re-reads the original path, so it throws ENOENT
instead of returning the freshly created record. -/
theorem c6_load_missing_key_crashes :
    (loadConversation "Ada" emptyFS).1 = Except.error LoadErr.enoent
  ∧ (loadConversation "Ada" emptyFS).2 (profilePath "Ada")
      = some (.good ⟨"Ada", false, []⟩)
  ∧ (loadConversation "Ada" emptyFS).2 (userPath "Ada") = none := by
  exact ⟨rfl, rfl, rfl⟩

/-- C7: append writes under `user_profiles/`, load reads the plain
`conversations/` path: a load right after an append throws ENOENT and
resets the just-appended record to empty instead of returning the pair. -/
theorem c7_roundtrip_broken :
    c7fs (profilePath "kai")
      = some (.good ⟨"kai", false, [⟨"user", "hi"⟩, ⟨"assistant", "yo"⟩]⟩)
  ∧ (loadConversation "kai" c7fs).1 = Except.error LoadErr.enoent
  ∧ (loadConversation "kai" c7fs).2 (profilePath "kai")
      = some (.good ⟨"kai", false, []⟩) := by
  exact ⟨rfl, rfl, rfl⟩

end NamiV3

namespace NamiV3

/-- C5: for a message with an underage indicator, the durable flag is not
set when the LLM call fails (old console variant), and never set at all in
the newer variant, which only flips a module-local boolean. On LLM success
the old variant does set it — the flag depends on the reply, contradicting
the word regardless in the claim. -/
theorem c5_flag_not_persisted :
    detectUnderage "I am 16" = true
  ∧ (askQuestionOld "I am 16" none c5state).fs (userPath consoleUsername)
      = some (.good ⟨consoleUsername, false, []⟩)
  ∧ (askQuestionOld "I am 16" (some "ok") c5state).fs (userPath consoleUsername)
      = some (.good ⟨consoleUsername, true,
          [⟨"user", "I am 16"⟩, ⟨"assistant", "ok"⟩]⟩)
  ∧ detectUnderage000 "I am 16" = true
  ∧ (askQuestion000 "I am 16" (some "ok") c5state000).underage = true
  ∧ (askQuestion000 "I am 16" (some "ok") c5state000).fs (userPath consoleUsername)
      = some (.good ⟨consoleUsername, false, []⟩) := by
  refine ⟨by decide, rfl, by decide, by decide, by decide, by decide⟩

/-- C1: on a 31-entry window whose non-system messages all mention the bot,
the trim step keeps the system entry first but returns 39 entries — the
source pushes `messagesToKeep` instead of `messagesToKeepLimited`, so the
cap of 30 is violated. -/
theorem c1_trim_cap_violated :
    (trimHistory c1window).head? = some systemMessage
  ∧ (trimHistory c1window).length = 39
  ∧ ¬ (trimHistory c1window).length ≤ 30 := by
  refine ⟨rfl, by decide, by decide⟩

/-- C2 counterexample: the rebuilt window duplicates messages (the oldest
salient messages appear both in the kept-salient run and in the kept
prefix), and keeps all 18 salient entries rather than a single-digit quota
of the most recent ones. -/
theorem c2_counterexample :
    ¬ (trimHistory c2window).Nodup
  ∧ c2window.Nodup
  ∧ (((trimHistory c2window).drop 1).filter keepPred).length = 18 := by
  refine ⟨by decide, by decide, by decide⟩

end NamiV3

namespace NamiV3

/-- C3: after `setMood "angry"`, `BOT_CONFIG` itself carries the angry
fragment, but the `role=system` entry of the window is the import-time snapshot:
it still contains the happy fragment and no angry fragment, so the next
request system prompt does not reflect the transition. -/
theorem c3_stale_mood_prompt :
    (applySetMoodCommand "angry" initProcState).config.mood = "angry"
  ∧ strIncludes (applySetMoodCommand "angry" initProcState).config.personality
      (moodFragmentText "angry") = true
  ∧ (applySetMoodCommand "angry" initProcState).conversationHistory.head?
      = some systemMessage
  ∧ strIncludes systemMessageContent (moodFragmentText "happy") = true
  ∧ strIncludes systemMessageContent (moodFragmentText "angry") = false := by
  refine ⟨rfl, by decide, rfl, by decide, by decide⟩

/-- C2 amended: when the window exceeds the cap, the head entry is
preserved, the output draws only on the input, every salient non-system
message is kept (no quota), and the output length is
`1 + s + (15 - min 7 s)` for `s` salient messages — exceeding the cap
whenever `s > 22`. -/
theorem c2_trim_keeps_all_salient (h : List Msg) (hlen : 30 < h.length) :
    (trimHistory h).head? = h.head?
  ∧ (∀ m, m ∈ trimHistory h → m ∈ h)
  ∧ (∀ m, m ∈ (h.drop 1).filter keepPred → m ∈ trimHistory h)
  ∧ (trimHistory h).length
      = 1 + ((h.drop 1).filter keepPred).length
          + (15 - min 7 ((h.drop 1).filter keepPred).length) := by
  obtain ⟨a, t, rfl⟩ : ∃ a t, h = a :: t := by
    cases h with
    | nil => simp at hlen
    | cons a t => exact ⟨a, t, rfl⟩
  have ht : 30 ≤ t.length := by
    simpa [List.length_cons] using Nat.lt_succ_iff.mp (by simpa using hlen)
  unfold trimHistory
  rw [if_pos hlen]
  simp only [List.drop_succ_cons, List.drop_zero, List.take_succ_cons, List.take_zero]
  refine ⟨rfl, ?_, ?_, ?_⟩
  · intro m hm
    rcases List.mem_append.mp hm with hm1 | hm2
    · rcases List.mem_append.mp hm1 with hm3 | hm4
      · exact List.mem_cons.mpr (.inl (List.mem_singleton.mp hm3))
      · exact List.mem_cons.mpr (.inr (List.mem_of_mem_filter hm4))
    · exact List.mem_cons.mpr (.inr (List.take_subset _ _ hm2))
  · intro m hm
    exact List.mem_append.mpr (.inl (List.mem_append.mpr (.inr hm)))
  · simp only [List.length_append, List.length_singleton, List.length_take]
    have h15 : 15 - min 7 (List.filter keepPred t).length ≤ t.length := by
      have : 15 - min 7 (List.filter keepPred t).length ≤ 15 := Nat.sub_le _ _
      omega
    rw [Nat.min_eq_left h15]

/-- Witness for the amended C2 at the concrete 31-entry window. -/
theorem c2_trim_keeps_all_salient_witness :
    (trimHistory c2window).head? = c2window.head?
  ∧ (∀ m, m ∈ trimHistory c2window → m ∈ c2window)
  ∧ (∀ m, m ∈ (c2window.drop 1).filter keepPred → m ∈ trimHistory c2window)
  ∧ (trimHistory c2window).length
      = 1 + ((c2window.drop 1).filter keepPred).length
          + (15 - min 7 ((c2window.drop 1).filter keepPred).length) :=
  c2_trim_keeps_all_salient c2window (by decide)

end NamiV3

namespace NamiV3

theorem submitRepeated_state (q : String) (s : RepState)
    (hq : q ≠ s.lastUserMessage) :
    ∀ n, 1 ≤ n → (submitRepeated q s n).lastUserMessage = q
      ∧ (submitRepeated q s n).repetitionCount = n - 1 := by
  intro n
  induction n with
  | zero => intro h; exact absurd h (by decide)
  | succ n ih =>
      intro _
      cases Nat.eq_zero_or_pos n with
      | inl h0 =>
          subst h0
          simp [submitRepeated, updateRepetition, hq]
      | inr hpos =>
          obtain ⟨hl, hc⟩ := ih hpos
          simp only [submitRepeated, updateRepetition, hl, hc, eq_self_iff_true, if_true]
          exact ⟨trivial, by omega⟩

theorem adjustedMaxTokens_antitone {c d : Nat} (h : c ≤ d) :
    adjustedMaxTokens d ≤ adjustedMaxTokens c := by
  simp only [adjustedMaxTokens, initialBotConfig]
  split <;> split <;> omega

theorem adjustedMaxTokens_pos (c : Nat) : 0 < adjustedMaxTokens c := by
  simp only [adjustedMaxTokens, initialBotConfig]
  split <;> omega

theorem adjustedMaxTokens_floor {c : Nat} (h : 2 ≤ c) : adjustedMaxTokens c = 2 := by
  simp only [adjustedMaxTokens, initialBotConfig]
  rw [if_pos (by omega)]

/-- C9 counterexample: the budgets of the first three consecutive identical
submissions are 120, 70 and 2 — a drop of 50 then a drop of 68, so the
decrease is not by a fixed amount until a floor is reached. -/
theorem c9_counterexample :
    adjustedMaxTokens ((submitRepeated "hi" ⟨"", 0⟩ 1).repetitionCount) = 120
  ∧ adjustedMaxTokens ((submitRepeated "hi" ⟨"", 0⟩ 2).repetitionCount) = 70
  ∧ adjustedMaxTokens ((submitRepeated "hi" ⟨"", 0⟩ 3).repetitionCount) = 2
  ∧ adjustedMaxTokens ((submitRepeated "hi" ⟨"", 0⟩ 1).repetitionCount)
      - adjustedMaxTokens ((submitRepeated "hi" ⟨"", 0⟩ 2).repetitionCount) = 50
  ∧ adjustedMaxTokens ((submitRepeated "hi" ⟨"", 0⟩ 2).repetitionCount)
      - adjustedMaxTokens ((submitRepeated "hi" ⟨"", 0⟩ 3).repetitionCount) = 68
  ∧ (68 : Int) ≠ 50 := by
  refine ⟨by decide, by decide, by decide, by decide, by decide, by decide⟩

/-- C9 amended: over consecutive identical submissions the computed output
budget is non-increasing and always positive (120, 70, then the non-zero
floor 2 from the third repeat on); the final drop to the floor (68) exceeds
the fixed per-repeat decrement (50). -/
theorem c9_budget_non_increasing (s : RepState) (q : String) (m n : Nat)
    (hq : q ≠ s.lastUserMessage) (h1 : 1 ≤ m) (hmn : m ≤ n) :
    adjustedMaxTokens ((submitRepeated q s n).repetitionCount)
      ≤ adjustedMaxTokens ((submitRepeated q s m).repetitionCount)
  ∧ 0 < adjustedMaxTokens ((submitRepeated q s n).repetitionCount)
  ∧ (3 ≤ n → adjustedMaxTokens ((submitRepeated q s n).repetitionCount) = 2) := by
  have hm := submitRepeated_state q s hq m h1
  have hn := submitRepeated_state q s hq n (le_trans h1 hmn)
  rw [hm.2, hn.2]
  refine ⟨adjustedMaxTokens_antitone (by omega), adjustedMaxTokens_pos _, ?_⟩
  intro h3
  exact adjustedMaxTokens_floor (by omega)

/-- Witness for the amended C9 at a concrete session. -/
theorem c9_budget_non_increasing_witness :
    adjustedMaxTokens ((submitRepeated "hi" ⟨"", 0⟩ 4).repetitionCount)
      ≤ adjustedMaxTokens ((submitRepeated "hi" ⟨"", 0⟩ 1).repetitionCount)
  ∧ 0 < adjustedMaxTokens ((submitRepeated "hi" ⟨"", 0⟩ 4).repetitionCount)
  ∧ (3 ≤ 4 → adjustedMaxTokens ((submitRepeated "hi" ⟨"", 0⟩ 4).repetitionCount) = 2) :=
  c9_budget_non_increasing ⟨"", 0⟩ "hi" 1 4 (by decide) (by decide) (by decide)

end NamiV3
